import Mathlib

/-!
Shallow embedding of `src/App.js` (Memory-Chatbot, top-level shell).

The source is a single React function component `App` holding two
`useState` cells:
  `const [view, setView] = useState('chat')`
  `const [isAdminLoggedIn, setIsAdminLoggedIn] = useState(false)`
and returning JSX: a header with a title, a subtitle and two navigation
buttons (whose `className` is `'active'` exactly when `view` matches and
whose `onClick` calls `setView` with the matching string), a `main`
element whose single child is `<ChatInterface />` when `view === 'chat'`
and `<AdminDashboard isLoggedIn={isAdminLoggedIn}
setIsLoggedIn={setIsAdminLoggedIn} />` otherwise, and a fixed footer.

The embedding models the component state as a structure, each event the
shell can receive (a click on either navigation button, or the admin
surface invoking the `setIsLoggedIn` capability with a boolean) as a
step on that state, and the rendered output as a data structure mirroring
the JSX tree shape relevant to the spec.
-/

namespace MemoryChatbot

/-- The shell-owned state: the two `useState` cells of `App`.
`view` is a JS string in the source (`'chat'` or `'admin'` at every
call site of `setView`), so it is embedded as `String`, not as an
enumeration: the enumeration property is proved, not assumed. -/
structure AppState where
  view : String
  isAdminLoggedIn : Bool
deriving DecidableEq, Repr

/-- The initial state: `useState('chat')` and `useState(false)`. -/
def initState : AppState := ⟨"chat", false⟩

/-- `setView` from the source: replaces the `view` cell. -/
def setView (s : AppState) (v : String) : AppState := { s with view := v }

/-- `setIsAdminLoggedIn` from the source: replaces the `isAdminLoggedIn`
cell. -/
def setIsAdminLoggedIn (s : AppState) (b : Bool) : AppState :=
  { s with isAdminLoggedIn := b }

/-- The events the shell can receive: a click on the Chat navigation
button (`onClick={() => setView('chat')}`), a click on the Admin
navigation button (`onClick={() => setView('admin')}`), or the admin
surface invoking the `setIsLoggedIn` write capability with a boolean. -/
inductive Event where
  | navChat : Event
  | navAdmin : Event
  | setLoggedIn (b : Bool) : Event
deriving DecidableEq, Repr

/-- One synchronous event dispatch: the handler attached to the event in
the source, applied to the current state. -/
def step (s : AppState) : Event → AppState
  | Event.navChat => setView s "chat"
  | Event.navAdmin => setView s "admin"
  | Event.setLoggedIn b => setIsAdminLoggedIn s b

/-- A finite sequence of event dispatches, in order. -/
def run (s : AppState) (es : List Event) : AppState := es.foldl step s

/-- A state is reachable when some finite event sequence leads to it from
the initial state. -/
def Reachable (s : AppState) : Prop := ∃ es : List Event, run initState es = s

/-- A child surface mounted in `main`: `<ChatInterface />` (no props) or
`<AdminDashboard isLoggedIn={...} ... />` (carrying the boolean it is
rendered with). -/
inductive Surface where
  | chatInterface : Surface
  | adminDashboard (isLoggedIn : Bool) : Surface
deriving DecidableEq, Repr

/-- A navigation button as rendered: its `className` and its label. -/
structure NavButton where
  className : String
  label : String
deriving DecidableEq, Repr

/-- The rendered output of `App`, mirroring the JSX tree: header title
and subtitle, the two navigation buttons, the list of children of
`main` (the JSX ternary yields exactly one element), and the footer. -/
structure Rendered where
  headerTitle : String
  subtitle : String
  chatButton : NavButton
  adminButton : NavButton
  mainChildren : List Surface
  footerText : String
deriving DecidableEq, Repr

/-- The render of `App` at a given state: a direct transcription of the
JSX returned by the source component. -/
def App (s : AppState) : Rendered :=
  { headerTitle := "🧠 Memory Chatbot"
  , subtitle := "Long-term memory AI that remembers across conversations"
  , chatButton := ⟨if s.view = "chat" then "active" else "", "💬 Chat"⟩
  , adminButton := ⟨if s.view = "admin" then "active" else "", "🔐 Admin Dashboard"⟩
  , mainChildren :=
      if s.view = "chat" then [Surface.chatInterface]
      else [Surface.adminDashboard s.isAdminLoggedIn]
  , footerText := "Built with governed long-term memory • No GPU required • CPU-only processing" }

/-- A navigation control, one per view value. -/
inductive NavControl where
  | chat : NavControl
  | admin : NavControl
deriving DecidableEq, Repr

/-- The view value a navigation control selects (the string literal the
source passes to `setView` in that button's `onClick`). -/
def NavControl.viewValue : NavControl → String
  | NavControl.chat => "chat"
  | NavControl.admin => "admin"

/-- The event a navigation-control activation dispatches. -/
def NavControl.toEvent : NavControl → Event
  | NavControl.chat => Event.navChat
  | NavControl.admin => Event.navAdmin

/-- `step`, with the result wrapped in `Except` to expose a possible
failure branch: each handler in the source is a single synchronous
assignment with no throw site, so every branch yields `Except.ok`. -/
def stepE (s : AppState) : Event → Except String AppState
  | Event.navChat => Except.ok (setView s "chat")
  | Event.navAdmin => Except.ok (setView s "admin")
  | Event.setLoggedIn b => Except.ok (setIsAdminLoggedIn s b)

/-- `App`, wrapped in `Except`: the JSX construction performs no I/O,
parsing or fallible computation, so it always yields `Except.ok`. -/
def AppE (s : AppState) : Except String Rendered := Except.ok (App s)

lemma run_cons (s : AppState) (e : Event) (es : List Event) :
    run s (e :: es) = run (step s e) es := rfl

lemma run_append (s : AppState) (xs ys : List Event) :
    run s (xs ++ ys) = run (run s xs) ys := by
  simp [run, List.foldl_append]

lemma reachable_view (s : AppState) (h : Reachable s) :
    s.view = "chat" ∨ s.view = "admin" := by
  obtain ⟨es, rfl⟩ := h
  suffices H : ∀ (es : List Event) (t : AppState),
      t.view = "chat" ∨ t.view = "admin" →
      ((run t es).view = "chat" ∨ (run t es).view = "admin") from
    H es initState (Or.inl rfl)
  intro es
  induction es with
  | nil => intro t h; exact h
  | cons e es ih =>
    intro t h
    rw [run_cons]
    apply ih
    cases e with
    | navChat => exact Or.inl rfl
    | navAdmin => exact Or.inr rfl
    | setLoggedIn b => exact h

/-- C1: in every reachable state, the render of the shell mounts exactly
one of the two child surfaces — the chat surface when `view = "chat"`,
the admin surface when `view = "admin"` — never both, never neither. -/
theorem c1_exactly_one_surface (s : AppState) (h : Reachable s) :
    (App s).mainChildren.length = 1 ∧
    (s.view = "chat" → (App s).mainChildren = [Surface.chatInterface]) ∧
    (s.view = "admin" → (App s).mainChildren = [Surface.adminDashboard s.isAdminLoggedIn]) := by
  refine ⟨?_, ?_, ?_⟩
  · by_cases hv : s.view = "chat" <;> simp [App, hv]
  · intro hv; simp [App, hv]
  · intro hv; simp [App, hv]

/-- Witness for C1 at the initial state, which is reachable by the empty
event sequence. -/
theorem c1_witness :
    (App initState).mainChildren.length = 1 ∧
    (initState.view = "chat" → (App initState).mainChildren = [Surface.chatInterface]) ∧
    (initState.view = "admin" →
      (App initState).mainChildren = [Surface.adminDashboard initState.isAdminLoggedIn]) :=
  c1_exactly_one_surface initState ⟨[], rfl⟩

/-- C2: at shell mount, before any interaction, the view is `"chat"`
(so the initial render mounts the chat surface) and the authentication
flag is `false`. -/
theorem c2_initial_state :
    initState.view = "chat" ∧ initState.isAdminLoggedIn = false ∧
    (App initState).mainChildren = [Surface.chatInterface] :=
  ⟨rfl, rfl, by simp [App, initState]⟩

/-- C3: after any finite nonempty sequence of navigation-control
activations, from any starting state, `view` equals the view value of
the last activated control; and activating a control whose view value is
already current leaves the whole state unchanged (a no-op
self-transition). -/
theorem c3_last_nav_control_wins :
    (∀ (s : AppState) (ns : List NavControl) (n : NavControl),
      (run s (List.map NavControl.toEvent (ns ++ [n]))).view = n.viewValue) ∧
    (∀ (s : AppState) (n : NavControl),
      s.view = n.viewValue → step s n.toEvent = s) := by
  constructor
  · intro s ns n
    rw [List.map_append, run_append]
    cases n <;> rfl
  · intro s n h
    obtain ⟨v, b⟩ := s
    cases n <;> simp [NavControl.viewValue] at h <;>
      simp [step, NavControl.toEvent, setView, h]

/-- Witness for C3: a concrete two-activation sequence ends at the last
control's view, and activating Chat in the initial state is a no-op. -/
theorem c3_witness :
    (run initState
      (List.map NavControl.toEvent ([NavControl.admin] ++ [NavControl.chat]))).view =
      NavControl.chat.viewValue ∧
    step initState NavControl.chat.toEvent = initState :=
  ⟨c3_last_nav_control_wins.1 initState [NavControl.admin] NavControl.chat,
   c3_last_nav_control_wins.2 initState NavControl.chat rfl⟩

/-- C4: invoking the write capability with `true` while the admin view is
active leaves `view` unchanged, and the next render mounts the admin
surface with `isLoggedIn = true`. -/
theorem c4_write_capability_effect (s : AppState) (h : s.view = "admin") :
    (step s (Event.setLoggedIn true)).view = s.view ∧
    (App (step s (Event.setLoggedIn true))).mainChildren =
      [Surface.adminDashboard true] := by
  refine ⟨rfl, ?_⟩
  simp [App, step, setIsAdminLoggedIn, h]

/-- Witness for C4 at the concrete state with admin view and flag off. -/
theorem c4_witness :
    (step (⟨"admin", false⟩ : AppState) (Event.setLoggedIn true)).view =
      (⟨"admin", false⟩ : AppState).view ∧
    (App (step (⟨"admin", false⟩ : AppState) (Event.setLoggedIn true))).mainChildren =
      [Surface.adminDashboard true] :=
  c4_write_capability_effect ⟨"admin", false⟩ rfl

/-- C5: switching from the admin view to chat and back leaves the
shell-owned flag unchanged, and the remounted admin surface receives the
same flag value it had before the two switches. -/
theorem c5_flag_persists_across_remount (s : AppState) (h : s.view = "admin") :
    (run s [Event.navChat, Event.navAdmin]).isAdminLoggedIn = s.isAdminLoggedIn ∧
    (App (run s [Event.navChat, Event.navAdmin])).mainChildren =
      [Surface.adminDashboard s.isAdminLoggedIn] := by
  refine ⟨rfl, ?_⟩
  simp [App, run, step, setView]

/-- Witness for C5 at the concrete state with admin view and flag on. -/
theorem c5_witness :
    (run (⟨"admin", true⟩ : AppState) [Event.navChat, Event.navAdmin]).isAdminLoggedIn =
      (⟨"admin", true⟩ : AppState).isAdminLoggedIn ∧
    (App (run (⟨"admin", true⟩ : AppState) [Event.navChat, Event.navAdmin])).mainChildren =
      [Surface.adminDashboard (⟨"admin", true⟩ : AppState).isAdminLoggedIn] :=
  c5_flag_persists_across_remount ⟨"admin", true⟩ rfl

/-- C6: each navigation-control activation leaves `isAdminLoggedIn`
unchanged, and the write capability leaves `view` unchanged, for every
state and every boolean argument. -/
theorem c6_frame_conditions (s : AppState) (b : Bool) :
    (step s Event.navChat).isAdminLoggedIn = s.isAdminLoggedIn ∧
    (step s Event.navAdmin).isAdminLoggedIn = s.isAdminLoggedIn ∧
    (step s (Event.setLoggedIn b)).view = s.view :=
  ⟨rfl, rfl, rfl⟩

/-- C7: in every state, a navigation button carries the class
`"active"` exactly when its view value equals the current view. -/
theorem c7_active_marking (s : AppState) :
    ((App s).chatButton.className = "active" ↔ s.view = "chat") ∧
    ((App s).adminButton.className = "active" ↔ s.view = "admin") := by
  constructor
  · by_cases h : s.view = "chat" <;> simp [App, h]
  · by_cases h : s.view = "admin" <;> simp [App, h]

/-- C8: in every reachable state, `view` holds one of the two enumerated
values `"chat"` or `"admin"`. -/
theorem c8_view_is_enumerated (s : AppState) (h : Reachable s) :
    s.view = "chat" ∨ s.view = "admin" :=
  reachable_view s h

/-- Witness for C8 at the initial state. -/
theorem c8_witness : initState.view = "chat" ∨ initState.view = "admin" :=
  c8_view_is_enumerated initState ⟨[], rfl⟩

/-- C9: no shell operation can fail — every event dispatch and every
render yields an `Except.ok` result for every input. -/
theorem c9_no_failure (s : AppState) (e : Event) :
    (∃ t, stepE s e = Except.ok t) ∧ (∃ r, AppE s = Except.ok r) := by
  cases e <;> exact ⟨⟨_, rfl⟩, ⟨_, rfl⟩⟩

/-- C10: when the chat view is active the rendered output is independent
of the authentication flag — two states agreeing on `view = "chat"`
render identically. -/
theorem c10_chat_render_independent_of_flag (s t : AppState)
    (hs : s.view = "chat") (ht : t.view = "chat") : App s = App t := by
  obtain ⟨vs, bs⟩ := s
  obtain ⟨vt, bt⟩ := t
  simp only [AppState.view] at hs ht
  subst hs
  subst ht
  simp [App]

/-- Witness for C10 at concrete states differing only in the flag. -/
theorem c10_witness :
    App (⟨"chat", true⟩ : AppState) = App (⟨"chat", false⟩ : AppState) :=
  c10_chat_render_independent_of_flag ⟨"chat", true⟩ ⟨"chat", false⟩ rfl rfl

end MemoryChatbot
